import Mathlib

/-!
Shallow embedding of the hogwarts_verify lookup service (src/main.go) and
verification of its specification claims.

The embedding models the two HTTP handlers of `main.go`:
`verifyHandler` (GET /verify) and `twilioVerifyHandler` (POST /twilio/verify),
together with the pure helpers they use (`charToWord`, `stripHTML`,
`html.EscapeString`, input validation and normalization).  The person store
(`db.QueryRow` against the `people` table) is modelled as either a list of
rows (queries succeed, returning the first matching row, or report no rows)
or a failed connection (every query returns an error with a detail string).
Handlers return the HTTP response together with the audit events passed to
`logError` and the list of lookup arguments sent to the store, so that
"the store was never queried" is expressible.
-/

namespace HogwartsVerify

/-- A row of the `people` table (see sql/create_tables.sql and the columns
selected by the handlers): national_id, full_name, category, remark. -/
structure Person where
  national_id : String
  full_name : String
  category : String
  remark : String
deriving DecidableEq

/-- The backing store: either reachable with a list of rows, or failing with
an error detail (modelling a connectivity/query failure of `db.QueryRow`). -/
inductive StoreState where
  | up (records : List Person)
  | down (errDetail : String)
deriving DecidableEq

/-- Result of a `db.QueryRow(...).Scan(...)` call: a scanned row, the
`sql.ErrNoRows` error, or another database error with its text. -/
inductive QueryResult where
  | found (p : Person)
  | noRows
  | dbError (detail : String)
deriving DecidableEq

/-- An HTTP response as the handlers build it: status code, the
Content-Type header (if set), and the written body. -/
structure HttpResponse where
  status : Nat
  contentType : Option String
  body : String
deriving DecidableEq

/-- Everything observable about one handler invocation: the response, the
(errorType, remark) pairs passed to `logError`, and the lookup arguments
sent to the person store (empty when the store was never queried). -/
structure HandlerResult where
  resp : HttpResponse
  events : List (String × String)
  queries : List String
deriving DecidableEq

/-- Go `http.Error(w, msg, code)`: sets Content-Type to
"text/plain; charset=utf-8" and writes the message followed by a newline. -/
def httpError (msg : String) (status : Nat) : HttpResponse :=
  { status := status, contentType := some "text/plain; charset=utf-8",
    body := msg ++ "\n" }

/-- A 200 response with Content-Type application/xml, as produced by
`w.Header().Set("Content-Type", "application/xml")` followed by `w.Write`. -/
def xmlOk (body : String) : HttpResponse :=
  { status := 200, contentType := some "application/xml", body := body }

/-- main.go lines 24-37: the `charToWord` map from characters to their
spoken form (digits, and the trailing letter v/V). -/
def charToWord (c : Char) : Option String :=
  if c = '0' then some "zero"
  else if c = '1' then some "one"
  else if c = '2' then some "two"
  else if c = '3' then some "three"
  else if c = '4' then some "four"
  else if c = '5' then some "five"
  else if c = '6' then some "six"
  else if c = '7' then some "seven"
  else if c = '8' then some "eight"
  else if c = '9' then some "nine"
  else if c = 'v' then some "vee"
  else if c = 'V' then some "vee"
  else none

/-- main.go lines 194-199: one loop iteration — the word from `charToWord`
when the character is in the map, otherwise the character itself. -/
def spokenWord (c : Char) : String :=
  match charToWord c with
  | some word => word
  | none => String.singleton c

/-- main.go lines 192-201: the digit-by-digit spoken form, the per-character
words joined with single spaces (`strings.Join(spokenInput, " ")`). -/
def spokenInputStr (s : String) : String :=
  String.intercalate " " (s.data.map spokenWord)

/-- One character of the class `[a-zA-Z0-9]` of the validation regexp. -/
def isAlnumChar (c : Char) : Bool :=
  decide (('a' ≤ c ∧ c ≤ 'z') ∨ ('A' ≤ c ∧ c ≤ 'Z') ∨ ('0' ≤ c ∧ c ≤ '9'))

/-- `regexp.MustCompile("^[a-zA-Z0-9]+$").MatchString s`: nonempty and all
characters alphanumeric. -/
def matchesAlnum (s : String) : Bool :=
  !s.data.isEmpty && s.data.all isAlnumChar

/-- Go `len(s)` on a string: its length in UTF-8 bytes. -/
def goLen (s : String) : Nat :=
  (s.data.map Char.utf8Size).sum

/-- main.go lines 181 and 251: the shared validation condition
`len(s) > 50 || !regexp.MustCompile("^[a-zA-Z0-9]+$").MatchString(s)`. -/
def idFormatInvalid (s : String) : Bool :=
  decide (50 < goLen s) || !matchesAlnum s

/-- main.go line 178: `strings.ReplaceAll(input, " ", "")`.  Replacing every
occurrence of the one-character pattern " " by the empty string removes
exactly the space characters (U+0020) and nothing else. -/
def stripSpaces (s : String) : String :=
  ⟨s.data.filter (fun c => c != ' ')⟩

/-- Go `html.EscapeString` on one character: `&` `'` `<` `>` `"` become
entity references, every other character is kept. -/
def escChar (c : Char) : List Char :=
  if c = '&' then "&amp;".data
  else if c = '\'' then "&#39;".data
  else if c = '<' then "&lt;".data
  else if c = '>' then "&gt;".data
  else if c = '"' then "&#34;".data
  else [c]

/-- Go `html.EscapeString`, used at main.go lines 271-272. -/
def escapeString (s : String) : String :=
  ⟨s.data.flatMap escChar⟩

/-- main.go line 42: `strings.ReplaceAll(input, "<br>", ". ")`, scanning
left to right and replacing each non-overlapping occurrence. -/
def replaceBr : List Char → List Char
  | '<' :: 'b' :: 'r' :: '>' :: rest => '.' :: ' ' :: replaceBr rest
  | c :: rest => c :: replaceBr rest
  | [] => []

/-- main.go lines 44-45: removal of the non-overlapping, leftmost matches of
the regexp `<[^>]+>` — from each `<`, if at least one character stands
before the next `>`, drop through that `>`; a `<` immediately followed by
`>` matches nothing, and without any later `>` no further match exists.
The fuel argument only bounds the recursion; every step consumes at least
one character, so fuel equal to the list length never runs out. -/
def removeTagsFuel : Nat → List Char → List Char
  | 0, l => l
  | _ + 1, [] => []
  | fuel + 1, c :: rest =>
    if c = '<' then
      if rest.takeWhile (fun x => x != '>') = [] then
        '<' :: removeTagsFuel fuel rest
      else
        match rest.dropWhile (fun x => x != '>') with
        | '>' :: after => removeTagsFuel fuel after
        | _ => '<' :: rest
    else c :: removeTagsFuel fuel rest

/-- `re.ReplaceAllString(input, "")` for `re := <[^>]+>` (main.go line 45). -/
def removeTags (l : List Char) : List Char :=
  removeTagsFuel l.length l

/-- `unicode.IsSpace`, the character set trimmed by `strings.TrimSpace`:
the Latin-1 white space characters and the Unicode White_Space class. -/
def goUnicodeIsSpace (c : Char) : Bool :=
  decide (c = ' ' ∨ c = '\t' ∨ c = '\n' ∨ c = '\u000B' ∨ c = '\u000C' ∨
    c = '\r' ∨ c = '\u0085' ∨ c = '\u00A0' ∨ c = '\u1680' ∨
    ('\u2000' ≤ c ∧ c ≤ '\u200A') ∨ c = '\u2028' ∨ c = '\u2029' ∨
    c = '\u202F' ∨ c = '\u205F' ∨ c = '\u3000')

/-- The character class `\s` of Go's regexp package: `[\t\n\f\r ]`. -/
def goRE2Space (c : Char) : Bool :=
  decide (c = '\t' ∨ c = '\n' ∨ c = '\u000C' ∨ c = '\r' ∨ c = ' ')

/-- `strings.TrimSpace` (main.go line 47): white space removed from both
ends. -/
def trimSpace (l : List Char) : List Char :=
  ((l.dropWhile goUnicodeIsSpace).reverse.dropWhile goUnicodeIsSpace).reverse

/-- `regexp.MustCompile("\\s+").ReplaceAllString(clean, " ")` (main.go
line 48): each maximal run of `\s` characters becomes one space.  The flag
records whether the previous character belonged to the current run. -/
def collapseWsAux : Bool → List Char → List Char
  | _, [] => []
  | inRun, c :: rest =>
    if goRE2Space c then
      if inRun then collapseWsAux true rest
      else ' ' :: collapseWsAux true rest
    else c :: collapseWsAux false rest

/-- The white space collapsing step of `stripHTML`. -/
def collapseWs (l : List Char) : List Char :=
  collapseWsAux false l

/-- main.go lines 40-50: `stripHTML` — `<br>` to ". ", tag removal,
`TrimSpace`, then collapsing runs of white space to single spaces. -/
def stripHTML (s : String) : String :=
  ⟨collapseWs (trimSpace (removeTags (replaceBr s.data)))⟩

/-- main.go lines 183-186: the TwiML document for an invalid-format input. -/
def invalidFormatTwiml : String :=
  "<?xml version=\"1.0\" encoding=\"UTF-8\"?>\n<Response>\n\t<Say>Invalid input format. Please use only numbers or letters.</Say>\n</Response>"

/-- main.go lines 221-224: the TwiML document for a successful lookup. -/
def successTwiml (spoken fullName categoryText cleanRemark : String) : String :=
  "<?xml version=\"1.0\" encoding=\"UTF-8\"?>\n<Response>\n\t<Say>You entered " ++
    spoken ++ ". The name is " ++ fullName ++ ". The category is " ++
    categoryText ++ ". Remark: " ++ cleanRemark ++ ".</Say>\n</Response>"

/-- main.go lines 229-232: the TwiML document when no row matched. -/
def noMatchTwiml (spoken : String) : String :=
  "<?xml version=\"1.0\" encoding=\"UTF-8\"?>\n<Response>\n\t<Say>Sorry, no match found for " ++
    spoken ++ ".</Say>\n</Response>"

/-- main.go lines 276-297: the student HTML fragment, with the already
escaped identifier and name interpolated at the two `%s` positions. -/
def studentTemplate (safeID safeName : String) : String :=
  "<div style=\"font-family: Arial, sans-serif; line-height: 1.6; padding: 10px;\">\n\t\t\t<strong>ID:</strong> " ++
    safeID ++ "<br>\n\t\t\t<strong>FULL NAME:</strong> " ++ safeName ++
    "<br>\n\t\t\t<strong>COURSES COMPLETED:</strong><br>\n\t\t\t<ul>\n\t\t\t\t<li>Introduction to Basic Psychology (One Hour Workshop)</li>\n\t\t\t\t<li>Introduction to Career Guidance (One Hour Workshop)</li>\n\t\t\t\t<li>Introduction to Basic Counselling (One Hour Workshop)</li>\n\t\t\t\t<li>Introduction to Basic IT (One Hour Workshop)</li>\n\t\t\t\t<li>Introduction to Basic Business Management (One Hour Workshop)</li>\n\t\t\t\t<li>Introduction to Basic Spoken English (One Hour Workshop)</li>\n\t\t\t\t<li>Introduction to Memory Boosting (One Hour Workshop)</li>\n\t\t\t\t<li>Introduction to Basic Personality Development (One Hour Workshop)</li>\n\t\t\t\t<li>Introduction to Entrepreneurship (One Hour Workshop)</li>\n\t\t\t\t<li>Introduction to Basic Body Language (One Hour Workshop)</li>\n\t\t\t\t<li>Introduction to Basic Counselling Skills (One Hour Workshop)</li>\n\t\t\t\t<li>Introduction to Basic Human Resource Management (One Hour Workshop)</li>\n\t\t\t\t<li>Introduction to Basic Teaching Methodologies (One Hour Workshop)</li>\n\t\t\t\t<li>Introduction to Basic Marketing Management (One Hour Workshop)</li>\n\t\t\t</ul>\n\t\t\t<strong>APPROVED AND VERIFIED:</strong> YES\n\t\t</div>"

/-- main.go lines 299-304: the staff/remarks HTML fragment: escaped
identifier and name, and the remark field interpolated as-is. -/
def staffTemplate (safeID safeName remark : String) : String :=
  "<div style=\"font-family: Arial, sans-serif; line-height: 1.6; padding: 10px;\">\n\t\t\t<strong>ID:</strong> " ++
    safeID ++ "<br>\n\t\t\t<strong>FULL NAME:</strong> " ++ safeName ++
    "<br>\n\t\t\t<strong>REMARKS:</strong><br>\n\t\t\t" ++ remark ++ "\n\t\t</div>"

/-- Go `r.PostFormValue(name)` / `url.Values.Get(name)` over a parsed form:
the first value stored under the exact key, or "" when absent. -/
def postFormValue (fields : List (String × String)) (name : String) : String :=
  match fields.find? (fun kv => kv.fst == name) with
  | some kv => kv.snd
  | none => ""

/-- main.go lines 134-143 and 158-167: probe the four field-name variants in
order and take the first non-empty value. -/
def probeFields (fields : List (String × String)) : String :=
  let input := postFormValue fields "Digits"
  let input := if input = "" then postFormValue fields "digits" else input
  let input := if input = "" then postFormValue fields "SpeechResult" else input
  if input = "" then postFormValue fields "speechresult" else input

/-- Outcome of the input-extraction part of the telephony handler
(main.go lines 134-175). -/
inductive ExtractResult where
  | bodyErr
  | noInput
  | extracted (input : String)
deriving DecidableEq

/-- main.go lines 134-175: extract the telephony input.  `bodyParsed`
models `url.ParseQuery` applied to the `body` field after
`strings.TrimPrefix(body, "?")`: `none` when parsing fails, otherwise the
parsed key-value pairs.  It is consulted exactly when the four direct
fields are empty and the `body` field is non-empty, as in the source. -/
def extractInput (fields : List (String × String))
    (bodyParsed : Option (List (String × String))) : ExtractResult :=
  let input := probeFields fields
  if input = "" then
    let body := postFormValue fields "body"
    if body != "" then
      match bodyParsed with
      | none => ExtractResult.bodyErr
      | some parsed =>
        let inner := probeFields parsed
        if inner = "" then ExtractResult.noInput else ExtractResult.extracted inner
    else ExtractResult.noInput
  else ExtractResult.extracted input

/-- `db.QueryRow` with `WHERE national_id = ? LIMIT 1` (main.go line 258):
the first row whose national_id equals the argument. -/
def exactQueryRow (store : StoreState) (id : String) : QueryResult :=
  match store with
  | StoreState.down d => QueryResult.dbError d
  | StoreState.up recs =>
    match recs.find? (fun r => r.national_id == id) with
    | some p => QueryResult.found p
    | none => QueryResult.noRows

/-- `db.QueryRow` with `WHERE national_id LIKE ? LIMIT 1` and pattern
`input+"%"` (main.go lines 205-206): the first row whose national_id has
the input as a prefix.  The input reaching this query is alphanumeric, so
it contains no LIKE metacharacters of its own. -/
def likeQueryRow (store : StoreState) (input : String) : QueryResult :=
  match store with
  | StoreState.down d => QueryResult.dbError d
  | StoreState.up recs =>
    match recs.find? (fun r => input.data.isPrefixOf r.national_id.data) with
    | some p => QueryResult.found p
    | none => QueryResult.noRows

/-- main.go lines 213-217 (and 257-305): `categoryText := "student"` unless
the category equals "staff". -/
def categoryText (category : String) : String :=
  if category = "staff" then "staff member" else "student"

/-- main.go lines 177-236: the telephony handler after input extraction —
space stripping, format validation, the LIKE lookup and TwiML rendering. -/
def twilioRespond (input0 : String) (store : StoreState) : HandlerResult :=
  let input := stripSpaces input0
  if idFormatInvalid input then
    { resp := xmlOk invalidFormatTwiml,
      events := [("TWILIO_INVALID_INPUT", "Invalid input format: " ++ input)],
      queries := [] }
  else
    let spoken := spokenInputStr input
    match likeQueryRow store input with
    | QueryResult.found p =>
      let catText := categoryText p.category
      let cleanRemark := stripHTML p.remark
      { resp := xmlOk (successTwiml spoken p.full_name catText cleanRemark),
        events := [("TWILIO_SUCCESS", "Verified input: " ++ input ++ ", Name: " ++
          p.full_name ++ ", Category: " ++ catText ++ ", Remark: " ++ cleanRemark)],
        queries := [input ++ "%"] }
    | QueryResult.noRows =>
      { resp := xmlOk (noMatchTwiml spoken),
        events := [("TWILIO_DB_ERROR", "Database error for input " ++ input ++
            ": sql: no rows in result set"),
          ("TWILIO_NO_MATCH", "No match found for input: " ++ input)],
        queries := [input ++ "%"] }
    | QueryResult.dbError d =>
      { resp := xmlOk (noMatchTwiml spoken),
        events := [("TWILIO_DB_ERROR", "Database error for input " ++ input ++ ": " ++ d),
          ("TWILIO_NO_MATCH", "No match found for input: " ++ input)],
        queries := [input ++ "%"] }

/-- A POST /twilio/verify request: either one whose form data fails to
parse, or a parsed form together with the parse result of its nested
`body` field (see `extractInput`). -/
inductive TwilioReq where
  | malformed
  | wellFormed (fields : List (String × String))
      (bodyParsed : Option (List (String × String)))
deriving DecidableEq

/-- main.go lines 125-236: `twilioVerifyHandler`. -/
def twilioVerifyHandler (req : TwilioReq) (store : StoreState) : HandlerResult :=
  match req with
  | TwilioReq.malformed =>
    { resp := httpError "Invalid form data" 400,
      events := [("TWILIO_INVALID_FORM", "Failed to parse form data")],
      queries := [] }
  | TwilioReq.wellFormed fields bodyParsed =>
    match extractInput fields bodyParsed with
    | ExtractResult.bodyErr =>
      { resp := httpError "Invalid body parameter" 400,
        events := [("TWILIO_INVALID_BODY", "Failed to parse body parameter")],
        queries := [] }
    | ExtractResult.noInput =>
      { resp := httpError "No input provided" 400,
        events := [("TWILIO_NO_INPUT", "No input provided in Digits or SpeechResult")],
        queries := [] }
    | ExtractResult.extracted input => twilioRespond input store

/-- main.go lines 242-310: `verifyHandler` (GET /verify), with `id` the
value of the `id` query parameter ("" when absent or empty). -/
def verifyHandler (id : String) (store : StoreState) : HandlerResult :=
  if id = "" then
    { resp := httpError "ID is required" 400,
      events := [("VERIFY_NO_ID", "No ID provided in query parameter")],
      queries := [] }
  else if idFormatInvalid id then
    { resp := httpError "Invalid ID format" 400,
      events := [("VERIFY_INVALID_ID", "Invalid ID format: " ++ id)],
      queries := [] }
  else
    match exactQueryRow store id with
    | QueryResult.noRows =>
      { resp := httpError "Person not found" 404,
        events := [("VERIFY_NOT_FOUND", "Person not found for ID: " ++ id)],
        queries := [id] }
    | QueryResult.dbError d =>
      { resp := httpError "Internal server error" 500,
        events := [("VERIFY_DB_ERROR", "Database error for ID " ++ id ++ ": " ++ d)],
        queries := [id] }
    | QueryResult.found p =>
      let safeID := escapeString id
      let safeName := escapeString p.full_name
      let htmlResponse :=
        if p.category = "student" then studentTemplate safeID safeName
        else staffTemplate safeID safeName p.remark
      { resp := { status := 200, contentType := some "text/html", body := htmlResponse },
        events := [("VERIFY_SUCCESS", "Verified ID: " ++ id ++ ", Name: " ++
          p.full_name ++ ", Category: " ++ p.category ++ ", Remark: " ++ p.remark)],
        queries := [id] }

/-- Follows the claim wording for C7 ("the input with every whitespace
character (spaces, tabs, newlines, and other whitespace) removed"), to be
compared against `stripSpaces`, the normalization the source performs. -/
def stripAllWhitespace (s : String) : String :=
  ⟨s.data.filter (fun c => !goUnicodeIsSpace c)⟩

/-! ### Helper lemmas -/

theorem isInfix_append_left {α : Type} {s a b : List α} (h : s <:+: a) :
    s <:+: a ++ b := by
  obtain ⟨u, v, huv⟩ := h
  exact ⟨u, v ++ b, by rw [← huv]; simp⟩

theorem isInfix_data_append_left {s : List Char} {a b : String}
    (h : s <:+: a.data) : s <:+: (a ++ b).data := by
  rw [String.data_append]
  exact isInfix_append_left h

theorem length_le_goLen (s : String) : s.length ≤ goLen s := by
  show s.data.length ≤ goLen s
  unfold goLen
  induction s.data with
  | nil => simp
  | cons c l ih =>
    simp only [List.map_cons, List.sum_cons, List.length_cons]
    have := Char.utf8Size_pos c
    omega

theorem not_lt_mem_escChar (c : Char) : '<' ∉ escChar c := by
  unfold escChar
  split_ifs with h1 h2 h3 h4 h5
  · decide
  · decide
  · decide
  · decide
  · decide
  · intro hm
    rw [List.mem_singleton] at hm
    exact h3 hm.symm

theorem not_lt_mem_escapeString (s : String) : '<' ∉ (escapeString s).data := by
  show '<' ∉ s.data.flatMap escChar
  intro h
  rw [List.mem_flatMap] at h
  obtain ⟨c, _, hmem⟩ := h
  exact not_lt_mem_escChar c hmem

theorem script_not_infix_escape (s : String) :
    ¬ ("<script>".data <:+: (escapeString s).data) := by
  intro h
  exact not_lt_mem_escapeString s (h.sublist.subset (by decide))

theorem stripSpaces_all_space {s : String} (h : ∀ c ∈ s.data, c = ' ') :
    stripSpaces s = "" := by
  show (⟨s.data.filter (fun c => c != ' ')⟩ : String) = ⟨[]⟩
  congr 1
  rw [List.filter_eq_nil_iff]
  intro c hc
  simp [h c hc]

theorem stripSpaces_eq_self {s : String} (h : ' ' ∉ s.data) :
    stripSpaces s = s := by
  cases s with
  | mk l =>
    show (⟨l.filter (fun c => c != ' ')⟩ : String) = ⟨l⟩
    congr 1
    rw [List.filter_eq_self]
    intro c hc
    simp only [bne_iff_ne, ne_eq]
    intro hcs
    exact h (hcs ▸ hc)

theorem isAlnumChar_space : isAlnumChar ' ' = false := by decide

theorem no_space_of_matchesAlnum {s : String} (h : matchesAlnum s = true) :
    ' ' ∉ s.data := by
  intro hmem
  unfold matchesAlnum at h
  rw [Bool.and_eq_true, List.all_eq_true] at h
  have := h.2 ' ' hmem
  simp [isAlnumChar_space] at this

theorem matchesAlnum_of_not_invalid {s : String} (h : idFormatInvalid s = false) :
    matchesAlnum s = true := by
  unfold idFormatInvalid at h
  rw [Bool.or_eq_false_iff] at h
  have := h.2
  simp only [Bool.not_eq_true'] at this
  simpa using this

theorem ne_empty_of_matchesAlnum {s : String} (h : matchesAlnum s = true) :
    s ≠ "" := by
  intro he
  subst he
  simp [matchesAlnum] at h

theorem say_infix_invalid : "<Say>".data <:+: invalidFormatTwiml.data := by decide

theorem say_infix_success (a b c d : String) :
    "<Say>".data <:+: (successTwiml a b c d).data := by
  unfold successTwiml
  refine isInfix_data_append_left ?_
  refine isInfix_data_append_left ?_
  refine isInfix_data_append_left ?_
  refine isInfix_data_append_left ?_
  refine isInfix_data_append_left ?_
  refine isInfix_data_append_left ?_
  refine isInfix_data_append_left ?_
  refine isInfix_data_append_left ?_
  decide

theorem say_infix_noMatch (a : String) :
    "<Say>".data <:+: (noMatchTwiml a).data := by
  unfold noMatchTwiml
  refine isInfix_data_append_left ?_
  refine isInfix_data_append_left ?_
  decide

/-! ### Claim theorems -/

/-- C4: digit-by-digit spoken rendering is a pure function of the
identifier, mapping each character through the fixed table 0->"zero" ...
9->"nine", v/V->"vee" and joining the words with single spaces; in
particular "123v" renders as "one two three vee". -/
theorem c4_spoken_rendering :
    spokenInputStr "123v" = "one two three vee" ∧
    spokenWord '0' = "zero" ∧ spokenWord '1' = "one" ∧ spokenWord '2' = "two" ∧
    spokenWord '3' = "three" ∧ spokenWord '4' = "four" ∧ spokenWord '5' = "five" ∧
    spokenWord '6' = "six" ∧ spokenWord '7' = "seven" ∧ spokenWord '8' = "eight" ∧
    spokenWord '9' = "nine" ∧ spokenWord 'v' = "vee" ∧ spokenWord 'V' = "vee" ∧
    ∀ s : String, spokenInputStr s = String.intercalate " " (s.data.map spokenWord) :=
  ⟨by decide, by decide, by decide, by decide, by decide, by decide, by decide,
   by decide, by decide, by decide, by decide, by decide, by decide,
   fun _ => rfl⟩

/-- C7 counterexample: normalization does not strip all whitespace — a tab
survives `strings.ReplaceAll(input, " ", "")`, differs from the
whitespace-stripped value the claim describes, and drives the handler into
the invalid-format branch even though the tab-free identifier is in the
store. -/
theorem c7_tab_survives_cex :
    stripSpaces "1\t2" = "1\t2" ∧
    stripAllWhitespace "1\t2" = "12" ∧
    stripSpaces "1\t2" ≠ stripAllWhitespace "1\t2" ∧
    (twilioVerifyHandler (TwilioReq.wellFormed [("Digits", "1\t2")] none)
        (StoreState.up [⟨"12", "Jane Doe", "student", ""⟩])).resp.body
      = invalidFormatTwiml := by
  decide

/-- C7 amended: normalization removes exactly the space characters (U+0020)
from the extracted value; every other character, including tabs, newlines
and other whitespace, is kept. -/
theorem c7_only_spaces_removed :
    ∀ (s : String) (c : Char),
    c ∈ (stripSpaces s).data ↔ (c ∈ s.data ∧ c ≠ ' ') := by
  intro s c
  show c ∈ s.data.filter (fun c => c != ' ') ↔ _
  rw [List.mem_filter]
  simp

/-- C8 counterexample: a GET /verify request with an empty id receives
status 400, but the body is the plain-text message "ID is required"
followed by a newline, not an empty body. -/
theorem c8_nonempty_body_cex :
    (verifyHandler "" (StoreState.up [])).resp.status = 400 ∧
    (verifyHandler "" (StoreState.up [])).resp.body = "ID is required\n" ∧
    (verifyHandler "" (StoreState.up [])).resp.body ≠ "" := by
  decide

/-- C8 amended: a GET /verify request whose id query parameter is empty or
absent receives status 400 with the plain-text body "ID is required"
followed by a newline, and the store is not queried. -/
theorem c8_missing_id_bad_request :
    ∀ store : StoreState,
    (verifyHandler "" store).resp.status = 400 ∧
    (verifyHandler "" store).resp.body = "ID is required\n" ∧
    (verifyHandler "" store).resp.contentType = some "text/plain; charset=utf-8" ∧
    (verifyHandler "" store).queries = [] := by
  intro store
  exact ⟨rfl, rfl, rfl, rfl⟩

theorem probeFields_digits (s : String) (h : s ≠ "") :
    probeFields [("Digits", s)] = s := by
  simp [probeFields, postFormValue, List.find?, h]

theorem extract_digits (s : String) (h : s ≠ "") :
    extractInput [("Digits", s)] none = ExtractResult.extracted s := by
  rw [extractInput, probeFields_digits s h]
  simp [h]

theorem mid_infix (x y z : String) : y.data <:+: ((x ++ y) ++ z).data :=
  ⟨x.data, z.data, by simp [String.data_append]⟩

theorem remark_infix_staffTemplate (a b r : String) :
    r.data <:+: (staffTemplate a b r).data := by
  unfold staffTemplate
  exact mid_infix _ _ _

/-- C9: a telephony request whose extracted input consists solely of space
characters takes the invalid-format path, not the no-input path: the
emptiness check precedes space stripping, the validation regexp rejects the
emptied string, and the caller receives the 200 invalid-format spoken
document with a TWILIO_INVALID_INPUT audit event, not the 400 no-input
response. -/
theorem c9_spaces_only_invalid_format :
    ∀ (s : String) (store : StoreState), s ≠ "" → (∀ c ∈ s.data, c = ' ') →
    (twilioVerifyHandler (TwilioReq.wellFormed [("Digits", s)] none) store).resp.status = 200 ∧
    (twilioVerifyHandler (TwilioReq.wellFormed [("Digits", s)] none) store).resp.contentType
      = some "application/xml" ∧
    (twilioVerifyHandler (TwilioReq.wellFormed [("Digits", s)] none) store).resp.body
      = invalidFormatTwiml ∧
    (twilioVerifyHandler (TwilioReq.wellFormed [("Digits", s)] none) store).events
      = [("TWILIO_INVALID_INPUT", "Invalid input format: ")] ∧
    (twilioVerifyHandler (TwilioReq.wellFormed [("Digits", s)] none) store).queries = [] := by
  intro s store hne hsp
  have hstrip : stripSpaces s = "" := stripSpaces_all_space hsp
  have hinv : idFormatInvalid "" = true := by decide
  simp [twilioVerifyHandler, extract_digits s hne, twilioRespond, hstrip, hinv, xmlOk]

/-- C9 witness: three spaces as the Digits value. -/
theorem c9_spaces_only_invalid_format_witness :
    (twilioVerifyHandler (TwilioReq.wellFormed [("Digits", "   ")] none)
        (StoreState.up [])).resp.status = 200 ∧
    (twilioVerifyHandler (TwilioReq.wellFormed [("Digits", "   ")] none)
        (StoreState.up [])).resp.contentType = some "application/xml" ∧
    (twilioVerifyHandler (TwilioReq.wellFormed [("Digits", "   ")] none)
        (StoreState.up [])).resp.body = invalidFormatTwiml ∧
    (twilioVerifyHandler (TwilioReq.wellFormed [("Digits", "   ")] none)
        (StoreState.up [])).events = [("TWILIO_INVALID_INPUT", "Invalid input format: ")] ∧
    (twilioVerifyHandler (TwilioReq.wellFormed [("Digits", "   ")] none)
        (StoreState.up [])).queries = [] :=
  c9_spaces_only_invalid_format "   " (StoreState.up []) (by decide) (by decide)

/-- C2: for every identifier longer than 50 characters or containing a
character outside [a-zA-Z0-9], the web handler and the telephony handler
(whose validated identifier is the space-stripped extracted value) reach a
validation-failure outcome and never query the person store. -/
theorem c2_invalid_format_never_queried :
    ∀ (id : String) (store : StoreState),
    (50 < id.length ∨ ∃ c ∈ id.data, isAlnumChar c = false) →
    ((verifyHandler id store).resp.status = 400 ∧ (verifyHandler id store).queries = []) ∧
    (∀ raw : String, stripSpaces raw = id →
      (twilioVerifyHandler (TwilioReq.wellFormed [("Digits", raw)] none) store).resp.status = 200 ∧
      (twilioVerifyHandler (TwilioReq.wellFormed [("Digits", raw)] none) store).resp.body
        = invalidFormatTwiml ∧
      (twilioVerifyHandler (TwilioReq.wellFormed [("Digits", raw)] none) store).queries = []) := by
  intro id store h
  have hne : id ≠ "" := by
    intro he
    subst he
    rcases h with hlen | ⟨c, hc, _⟩
    · simp [String.length] at hlen
    · simp at hc
  have hinv : idFormatInvalid id = true := by
    unfold idFormatInvalid
    rcases h with hlen | ⟨c, hc, hbad⟩
    · have hgl : 50 < goLen id := lt_of_lt_of_le hlen (length_le_goLen id)
      simp [hgl]
    · have hall : id.data.all isAlnumChar = false := by
        rw [List.all_eq_false]
        exact ⟨c, hc, by simp [hbad]⟩
      simp [matchesAlnum, hall]
  refine ⟨?_, ?_⟩
  · constructor <;> simp [verifyHandler, hne, hinv, httpError]
  · intro raw hraw
    have hrawne : raw ≠ "" := by
      intro he
      subst he
      exact hne (by rw [← hraw]; rfl)
    simp [twilioVerifyHandler, extract_digits raw hrawne, twilioRespond, hraw, hinv, xmlOk]

/-- C2 witness: the one-character identifier "!" is rejected by both
handlers with no store query. -/
theorem c2_invalid_format_never_queried_witness :
    ((verifyHandler "!" (StoreState.up [])).resp.status = 400 ∧
     (verifyHandler "!" (StoreState.up [])).queries = []) ∧
    ((twilioVerifyHandler (TwilioReq.wellFormed [("Digits", "!")] none)
        (StoreState.up [])).resp.status = 200 ∧
     (twilioVerifyHandler (TwilioReq.wellFormed [("Digits", "!")] none)
        (StoreState.up [])).resp.body = invalidFormatTwiml ∧
     (twilioVerifyHandler (TwilioReq.wellFormed [("Digits", "!")] none)
        (StoreState.up [])).queries = []) :=
  have h := c2_invalid_format_never_queried "!" (StoreState.up [])
    (Or.inr ⟨'!', by decide, by decide⟩)
  ⟨h.1, h.2 "!" (by decide)⟩

/-- C5: for a valid web identifier, not-found and store-failure are
distinct outcomes — no matching row yields 404, a failing store query
yields 500 with the fixed body "Internal server error" that carries no
internal error detail, whatever the detail string is. -/
theorem c5_notfound_vs_failure :
    ∀ (id : String) (recs : List Person) (d : String),
    idFormatInvalid id = false →
    (List.find? (fun r => r.national_id == id) recs = none →
      (verifyHandler id (StoreState.up recs)).resp.status = 404 ∧
      (verifyHandler id (StoreState.up recs)).resp.body = "Person not found\n") ∧
    ((verifyHandler id (StoreState.down d)).resp.status = 500 ∧
     (verifyHandler id (StoreState.down d)).resp.body = "Internal server error\n") := by
  intro id recs d hval
  have hne : id ≠ "" := ne_empty_of_matchesAlnum (matchesAlnum_of_not_invalid hval)
  constructor
  · intro hfind
    constructor <;> simp [verifyHandler, hne, hval, exactQueryRow, hfind, httpError]
  · constructor <;> simp [verifyHandler, hne, hval, exactQueryRow, httpError]

/-- C5 witness: identifier "abc" with an empty store and with a failed
store. -/
theorem c5_notfound_vs_failure_witness :
    ((verifyHandler "abc" (StoreState.up [])).resp.status = 404 ∧
     (verifyHandler "abc" (StoreState.up [])).resp.body = "Person not found\n") ∧
    ((verifyHandler "abc" (StoreState.down "connection refused")).resp.status = 500 ∧
     (verifyHandler "abc" (StoreState.down "connection refused")).resp.body
       = "Internal server error\n") :=
  have h := c5_notfound_vs_failure "abc" [] "connection refused" (by decide)
  ⟨h.1 (by decide), h.2⟩

/-- C6: on a web hit the rendered fragment interpolates the HTML-escaped
identifier and full name in both templates, and no escaped value can
contain the substring "<script>" (escaping removes every raw < sign). -/
theorem c6_escaped_interpolation :
    ∀ (id : String) (recs : List Person) (p : Person),
    idFormatInvalid id = false →
    List.find? (fun r => r.national_id == id) recs = some p →
    ((verifyHandler id (StoreState.up recs)).resp.body =
      (if p.category = "student"
       then studentTemplate (escapeString id) (escapeString p.full_name)
       else staffTemplate (escapeString id) (escapeString p.full_name) p.remark)) ∧
    (∀ s : String, ¬ ("<script>".data <:+: (escapeString s).data)) := by
  intro id recs p hval hfind
  have hne : id ≠ "" := ne_empty_of_matchesAlnum (matchesAlnum_of_not_invalid hval)
  constructor
  · simp [verifyHandler, hne, hval, exactQueryRow, hfind]
  · exact script_not_infix_escape

/-- C6 witness: a student whose name is a script tag is rendered through
the escaped interpolation, and the escaped name no longer contains the
substring. -/
theorem c6_escaped_interpolation_witness :
    ((verifyHandler "ab1"
        (StoreState.up [⟨"ab1", "<script>alert(1)</script>", "student", ""⟩])).resp.body =
      (if ("student" : String) = "student"
       then studentTemplate (escapeString "ab1") (escapeString "<script>alert(1)</script>")
       else staffTemplate (escapeString "ab1") (escapeString "<script>alert(1)</script>") "")) ∧
    ¬ ("<script>".data <:+: (escapeString "<script>alert(1)</script>").data) :=
  have h := c6_escaped_interpolation "ab1"
    [⟨"ab1", "<script>alert(1)</script>", "student", ""⟩]
    ⟨"ab1", "<script>alert(1)</script>", "student", ""⟩ (by decide) (by decide)
  ⟨h.1, h.2 "<script>alert(1)</script>"⟩

/-- C10: every resolved web record whose category differs from "student" —
including values outside the student/staff enumeration — is rendered with
the staff/remarks template, and the remark appears in the fragment
verbatim, without HTML escaping; there is no separate data-integrity
branch. -/
theorem c10_nonstudent_staff_template :
    ∀ (id : String) (recs : List Person) (p : Person),
    idFormatInvalid id = false →
    List.find? (fun r => r.national_id == id) recs = some p →
    p.category ≠ "student" →
    (verifyHandler id (StoreState.up recs)).resp.body =
      staffTemplate (escapeString id) (escapeString p.full_name) p.remark ∧
    p.remark.data <:+: (verifyHandler id (StoreState.up recs)).resp.body.data := by
  intro id recs p hval hfind hcat
  have hne : id ≠ "" := ne_empty_of_matchesAlnum (matchesAlnum_of_not_invalid hval)
  have hbody : (verifyHandler id (StoreState.up recs)).resp.body =
      staffTemplate (escapeString id) (escapeString p.full_name) p.remark := by
    simp [verifyHandler, hne, hval, exactQueryRow, hfind, hcat]
  exact ⟨hbody, hbody ▸ remark_infix_staffTemplate _ _ _⟩

/-- C10 witness: category "wizard" (outside the enumeration) with a script
tag in the remark, rendered verbatim by the staff template. -/
theorem c10_nonstudent_staff_template_witness :
    (verifyHandler "s1"
        (StoreState.up [⟨"s1", "Argus Filch", "wizard", "<script>boo</script>"⟩])).resp.body =
      staffTemplate (escapeString "s1") (escapeString "Argus Filch") "<script>boo</script>" ∧
    "<script>boo</script>".data <:+:
      (verifyHandler "s1"
        (StoreState.up [⟨"s1", "Argus Filch", "wizard", "<script>boo</script>"⟩])).resp.body.data :=
  c10_nonstudent_staff_template "s1"
    [⟨"s1", "Argus Filch", "wizard", "<script>boo</script>"⟩]
    ⟨"s1", "Argus Filch", "wizard", "<script>boo</script>"⟩
    (by decide) (by decide) (by decide)

set_option maxRecDepth 4096 in
/-- C3 counterexample: the telephony resolver has no exact-match tier — with
rows ["1234" (Alice Prefix), "123" (Bob Exact)] and input "123", the single
LIKE query returns the first prefix-sharing row (Alice), even though an
exactly matching row (Bob) is in the store; the exact match is not
preferred. -/
theorem c3_exact_match_not_preferred_cex :
    (twilioVerifyHandler (TwilioReq.wellFormed [("Digits", "123")] none)
        (StoreState.up [⟨"1234", "Alice Prefix", "student", ""⟩,
          ⟨"123", "Bob Exact", "student", ""⟩])).resp.body
      = successTwiml (spokenInputStr "123") "Alice Prefix" (categoryText "student")
          (stripHTML "") ∧
    List.find? (fun r => r.national_id == "123")
        [(⟨"1234", "Alice Prefix", "student", ""⟩ : Person),
          ⟨"123", "Bob Exact", "student", ""⟩]
      = some ⟨"123", "Bob Exact", "student", ""⟩ ∧
    ¬ ("Bob Exact".data <:+: (twilioVerifyHandler (TwilioReq.wellFormed [("Digits", "123")] none)
        (StoreState.up [⟨"1234", "Alice Prefix", "student", ""⟩,
          ⟨"123", "Bob Exact", "student", ""⟩])).resp.body.data) := by
  decide

/-- C3 amended: for every validated telephony identifier the resolver
issues exactly one store lookup, a prefix-style LIKE query with pattern
input+"%", and answers from the first row whose national_id extends the
input — there is no preceding exact-match tier, so an exactly matching row
is not necessarily preferred over a row that merely shares the prefix. -/
theorem c3_single_prefix_match :
    ∀ (input : String) (recs : List Person),
    idFormatInvalid input = false →
    ((twilioVerifyHandler (TwilioReq.wellFormed [("Digits", input)] none)
        (StoreState.up recs)).queries = [input ++ "%"]) ∧
    (∀ p : Person, List.find? (fun r => input.data.isPrefixOf r.national_id.data) recs = some p →
      (twilioVerifyHandler (TwilioReq.wellFormed [("Digits", input)] none)
          (StoreState.up recs)).resp.body
        = successTwiml (spokenInputStr input) p.full_name (categoryText p.category)
            (stripHTML p.remark)) ∧
    (List.find? (fun r => input.data.isPrefixOf r.national_id.data) recs = none →
      (twilioVerifyHandler (TwilioReq.wellFormed [("Digits", input)] none)
          (StoreState.up recs)).resp.body = noMatchTwiml (spokenInputStr input)) := by
  intro input recs hval
  have hm := matchesAlnum_of_not_invalid hval
  have hne := ne_empty_of_matchesAlnum hm
  have hstrip : stripSpaces input = input := stripSpaces_eq_self (no_space_of_matchesAlnum hm)
  refine ⟨?_, ?_, ?_⟩
  · rcases hfind : List.find? (fun r => input.data.isPrefixOf r.national_id.data) recs with _ | p <;>
      simp [twilioVerifyHandler, extract_digits input hne, twilioRespond, hstrip, hval,
        likeQueryRow, hfind, xmlOk]
  · intro p hfind
    simp [twilioVerifyHandler, extract_digits input hne, twilioRespond, hstrip, hval,
      likeQueryRow, hfind, xmlOk]
  · intro hfind
    simp [twilioVerifyHandler, extract_digits input hne, twilioRespond, hstrip, hval,
      likeQueryRow, hfind, xmlOk]

/-- C3 witness: input "123" against a store holding only "1234" resolves
through the prefix query. -/
theorem c3_single_prefix_match_witness :
    (twilioVerifyHandler (TwilioReq.wellFormed [("Digits", "123")] none)
        (StoreState.up [⟨"1234", "Alice Prefix", "student", ""⟩])).queries = ["123" ++ "%"] ∧
    (twilioVerifyHandler (TwilioReq.wellFormed [("Digits", "123")] none)
        (StoreState.up [⟨"1234", "Alice Prefix", "student", ""⟩])).resp.body
      = successTwiml (spokenInputStr "123") "Alice Prefix" (categoryText "student")
          (stripHTML "") :=
  have h := c3_single_prefix_match "123" [⟨"1234", "Alice Prefix", "student", ""⟩] (by decide)
  ⟨h.1, h.2.1 ⟨"1234", "Alice Prefix", "student", ""⟩ (by decide)⟩

set_option maxRecDepth 4096 in
/-- C1 counterexample: the telephony handler does return bare HTTP errors —
a request with no recognized field gets status 400 ("No input provided"),
as does one whose form fails to parse; and none of the TwiML documents the
handler emits (hit, miss, invalid format) contains a Hangup directive. -/
theorem c1_error_and_no_hangup_cex :
    (twilioVerifyHandler (TwilioReq.wellFormed [] none) (StoreState.up [])).resp.status = 400 ∧
    (twilioVerifyHandler TwilioReq.malformed (StoreState.up [])).resp.status = 400 ∧
    ¬ ("<Hangup".data <:+: (twilioVerifyHandler (TwilioReq.wellFormed [("Digits", "99")] none)
        (StoreState.up [⟨"99", "Jane", "student", "fine"⟩])).resp.body.data) ∧
    ¬ ("<Hangup".data <:+: (twilioVerifyHandler (TwilioReq.wellFormed [("Digits", "99")] none)
        (StoreState.up [])).resp.body.data) ∧
    ¬ ("<Hangup".data <:+: (twilioVerifyHandler (TwilioReq.wellFormed [("Digits", "!!")] none)
        (StoreState.up [])).resp.body.data) := by
  decide

/-- C1 amended: every telephony response is either a plain-text 400 error
(unparsable form, unparsable body parameter, or no input) or a 200
response with Content-Type application/xml whose TwiML document contains
at least one Say element; the emitted TwiML contains no Hangup directive. -/
theorem c1_response_dichotomy :
    ∀ (req : TwilioReq) (store : StoreState),
    ((twilioVerifyHandler req store).resp.status = 400 ∧
     (twilioVerifyHandler req store).resp.contentType = some "text/plain; charset=utf-8") ∨
    ((twilioVerifyHandler req store).resp.status = 200 ∧
     (twilioVerifyHandler req store).resp.contentType = some "application/xml" ∧
     "<Say>".data <:+: (twilioVerifyHandler req store).resp.body.data) := by
  intro req store
  cases req with
  | malformed => exact Or.inl ⟨rfl, rfl⟩
  | wellFormed fields bp =>
    cases hex : extractInput fields bp with
    | bodyErr =>
      left
      constructor <;> simp [twilioVerifyHandler, hex, httpError]
    | noInput =>
      left
      constructor <;> simp [twilioVerifyHandler, hex, httpError]
    | extracted i =>
      right
      by_cases hval : idFormatInvalid (stripSpaces i) = true
      · simp [twilioVerifyHandler, hex, twilioRespond, hval, xmlOk]
        exact say_infix_invalid
      · have hv : idFormatInvalid (stripSpaces i) = false := by
          rwa [Bool.not_eq_true] at hval
        rcases hq : likeQueryRow store (stripSpaces i) with p | _ | d
        · simp [twilioVerifyHandler, hex, twilioRespond, hv, hq, xmlOk]
          exact say_infix_success _ _ _ _
        · simp [twilioVerifyHandler, hex, twilioRespond, hv, hq, xmlOk]
          exact say_infix_noMatch _
        · simp [twilioVerifyHandler, hex, twilioRespond, hv, hq, xmlOk]
          exact say_infix_noMatch _

end HogwartsVerify
